import Mathlib

/-!
Shallow embedding of `src/index.js` (the `compression` HTTP middleware): the
per-response session state, the response proxy operations (`write`, `end`, `on`,
`flush`), and the header-time decision engine, together with spec-modelled
external collaborators (the accept-encoding negotiation, the Vary helper, and
the native transport's end semantics).
-/

namespace Compression

/-- ASCII whitespace as matched by the `\s` class in the source's
cache-control regular expression, restricted to the characters that occur in
header values. -/
def isJsWhitespace (c : Char) : Bool :=
  c = ' ' || c = '\t' || c = '\n' || c = '\r' || c = '\x0c'

/-- Drop leading and trailing whitespace from a character list. -/
def trimWs (l : List Char) : List Char :=
  ((l.dropWhile isJsWhitespace).reverse.dropWhile isJsWhitespace).reverse

/-- Embedding of the JavaScript `Number(...)` coercion as the source applies it
to header strings (`Number(res.getHeader('Content-Length'))`, src line 205): an
empty or all-whitespace string coerces to 0, a decimal digit string to its
value, and anything else to NaN, represented here as `none`. -/
def jsToNumber (s : String) : Option Nat :=
  let t := trimWs s.data
  if t.isEmpty then some 0
  else if t.all Char.isDigit then
    some (t.foldl (fun n c => n * 10 + (c.toNat - 48)) 0)
  else none

/-- JavaScript falsiness of an optional header-string value: absent
(`undefined`) and the empty string are falsy. -/
def jsFalsyStr : Option String → Bool
  | none => true
  | some s => s.data.isEmpty

/-- Embedding of `res.getHeader('Content-Encoding') || 'identity'`
(src line 210): a falsy header value falls back to the default. -/
def headerOr (v : Option String) (d : String) : String :=
  match v with
  | none => d
  | some s => if s.data.isEmpty then d else s

/-- The response headers the source reads or mutates.  The Vary header is kept
as the list of its field names, the granularity at which the Vary collaborator
works. -/
structure Headers where
  contentType : Option String := none
  contentLength : Option String := none
  contentEncoding : Option String := none
  cacheControl : Option String := none
  vary : Option (List String) := none
deriving DecidableEq

/-- The request data the source reads: the method (src line 219) and the
encodings listed by the Accept-Encoding header, in header order, which feed the
negotiation collaborator (src lines 225-231). -/
structure Request where
  method : String
  acceptList : List String
deriving DecidableEq

/-- The middleware options forwarded verbatim to the gzip/deflate constructors
(`zlib.createGzip(opts)` / `zlib.createDeflate(opts)`, src lines 244-245),
represented by the usual zlib tuning fields. -/
structure Opts where
  level : Option Nat := none
  memLevel : Option Nat := none
  chunkSize : Option Nat := none
deriving DecidableEq

/-- A zlib compression stream as constructed by the decision engine: the fixed
algorithm and the options value passed to its constructor (`none` when the
constructor was called with no argument). -/
structure CompressionStream where
  algorithm : String
  opts : Option Opts
deriving DecidableEq

/-- Embedding of src lines 241-245: brotli is constructed with no argument,
gzip and deflate receive the middleware options object. -/
def createStream (method : String) (opts : Opts) : CompressionStream :=
  if method = "br" then { algorithm := "br", opts := none }
  else if method = "gzip" then { algorithm := "gzip", opts := some opts }
  else { algorithm := "deflate", opts := some opts }

/-- An event handler: either a user-registered one (identified by a tag) or one
of the three internal handlers the engine wires on the accept path
(src lines 255-267). -/
inductive Handler
  | user (id : Nat)
  | onStreamData
  | onStreamEnd
  | onResponseDrain
deriving DecidableEq

/-- A body chunk that passes the source's type test: a string or a
Uint8Array/Buffer (held as its byte list). -/
inductive Chunk
  | str (s : String)
  | bytes (b : List Nat)
deriving DecidableEq

/-- The argument of a `write` call as classified by src lines 83-91: `null`, a
valid chunk, or any other value (neither string nor Uint8Array). -/
inductive WriteChunk
  | nullChunk
  | valid (c : Chunk)
  | invalid
deriving DecidableEq

/-- A Buffer value as produced by `toBuffer` (src lines 334-338): either raw
bytes or the encoding-directed conversion of a string. -/
inductive Buf
  | raw (b : List Nat)
  | ofString (s : String)
deriving DecidableEq

/-- Embedding of `toBuffer` (src lines 334-338): byte chunks keep their bytes,
strings go through `Buffer.from`. -/
def toBuffer : Chunk → Buf
  | .bytes b => .raw b
  | .str s => .ofString s

/-- Embedding of `chunkLength` (src lines 289-297) for the default utf-8
encoding: 0 for a missing chunk, the byte length otherwise. -/
def chunkLength : Option Chunk → Nat
  | none => 0
  | some (.str s) => s.utf8ByteSize
  | some (.bytes b) => b.length

/-- Embedding of the test of `cacheControlNoTransformRegExp`
(`/(?:^|,)\s*?no-transform\s*?(?:,|$)/`, src line 40): some comma-delimited
segment of the value is `no-transform` up to surrounding whitespace. -/
def cacheControlNoTransform (cc : String) : Bool :=
  ((cc.data.splitOn ',').map trimWs).contains ("no-transform".data)

/-- Embedding of `shouldTransform` (src lines 320-327), on the Cache-Control
header value: absent or falsy values allow transformation, otherwise the
no-transform pattern must not match. -/
def shouldTransform (cacheControl : Option String) : Bool :=
  match cacheControl with
  | none => true
  | some cc => cc.data.isEmpty || !(cacheControlNoTransform cc)

/-- Embedding of `shouldCompress` (src lines 304-313), parameterized by the
external `compressible` content-type table: an absent Content-Type or a
non-compressible one fails the filter. -/
def shouldCompress (compressible : String → Bool) (h : Headers) : Bool :=
  match h.contentType with
  | none => false
  | some t => compressible t

/-- Modelled from the spec: the request's acceptable-encodings collaborator
(the `accepts` library, not under src/).  Given the candidate list, it returns
the request's most preferred acceptable candidate (header order decides), with
`identity` implicitly acceptable as the last resort when offered. -/
def acceptEncoding (acceptList : List String) (provided : List String) : Option String :=
  match acceptList.find? (fun e => provided.contains e) with
  | some e => some e
  | none => if provided.contains "identity" then some "identity" else none

/-- Embedding of the negotiation step (src lines 224-231): negotiate against
the fixed candidate order, then apply the deflate-to-gzip tie-break. -/
def negotiate (acceptList : List String) : Option String :=
  let method := acceptEncoding acceptList ["br", "gzip", "deflate", "identity"]
  if method = some "deflate" ∧ (acceptEncoding acceptList ["gzip"]).isSome = true then
    acceptEncoding acceptList ["gzip", "identity"]
  else method

/-- Modelled from the spec: the Vary helper (the `vary` library, not under
src/) mutates the Vary header to include Accept-Encoding, on the header's field
list. -/
def varyAppendAE (v : Option (List String)) : List String :=
  match v with
  | none => ["Accept-Encoding"]
  | some l => if "Accept-Encoding" ∈ l then l else l ++ ["Accept-Encoding"]

/-- The error outcome of the native transport's `end`.  `errAlreadyEnded`
stands for the ERR_STREAM_WRITE_AFTER_END / ERR_STREAM_ALREADY_FINISHED
category named in the source comments (src lines 111, 141). -/
inductive NativeEndResult
  | ok
  | errDestroyed
  | errAlreadyEnded
deriving DecidableEq

/-- Modelled from the spec: the native transport's `end` (Node's
ServerResponse, not under src/).  The spec describes the use-after-end error
contract as determined by the transport's destroyed/finished state: a destroyed
transport surfaces the destroyed category, an already-finished one the
already-ended category, and otherwise `end` succeeds. -/
def nativeEnd (destroyed finished : Bool) : NativeEndResult :=
  if destroyed then .errDestroyed
  else if finished then .errAlreadyEnded
  else .ok

/-- Modelled from the spec: the error category a native transport in the given
destroyed-state surfaces when its `end` is called a second time (its first
`end` left it finished). -/
def nativeDoubleEnd (destroyed : Bool) : NativeEndResult :=
  nativeEnd destroyed true

/-- The per-response session: the native response's observable state plus the
middleware's closure variables (`ended`, `length`, `listeners`, `stream`,
src lines 64-67), and the listener lists accumulated on the raw transport
(via `_on`) and on the compression stream. -/
structure Session where
  headers : Headers
  headerSent : Bool := false
  destroyed : Bool := false
  finished : Bool := false
  ended : Bool := false
  length : Option Nat := none
  listeners : Option (List (String × Handler)) := some []
  stream : Option CompressionStream := none
  transportListeners : List (String × Handler) := []
  streamListeners : List (String × Handler) := []
deriving DecidableEq

/-- The session as the middleware creates it when it attaches to a fresh
response (src lines 63-67). -/
def initialSession (h : Headers) : Session :=
  { headers := h }

/-- The resolved middleware configuration: the filter predicate, the threshold
(`bytes.parse(opts.threshold)` with default 1024, src lines 54-59), and the
codec options object. -/
structure Config where
  filter : Request → Headers → Bool
  threshold : Nat
  opts : Opts

/-- Embedding of the option resolution in `compression(options)`
(src lines 50-59): an absent filter falls back to `shouldCompress`, an absent
or unparseable threshold falls back to 1024. -/
def compressionConfig (filterOpt : Option (Request → Headers → Bool))
    (compressible : String → Bool) (thresholdParsed : Option Nat)
    (opts : Opts) : Config :=
  { filter := filterOpt.getD (fun _ h => shouldCompress compressible h)
    threshold := thresholdParsed.getD 1024
    opts := opts }

/-- Embedding of `nocompress` (src lines 182-186): replay the buffered
listeners onto the raw transport and mark buffering as closed. -/
def nocompress (s : Session) : Session :=
  { s with
    transportListeners := s.transportListeners ++ s.listeners.getD []
    listeners := none }

/-- Embedding of the threshold condition (src line 205):
`Number(res.getHeader('Content-Length')) < threshold || length < threshold`.
A NaN or undefined operand makes its comparison false. -/
def belowThreshold (cl : Option String) (length : Option Nat) (threshold : Nat) : Bool :=
  (match cl with
   | none => false
   | some s =>
     match jsToNumber s with
     | none => false
     | some n => decide (n < threshold))
  ||
  (match length with
   | none => false
   | some l => decide (l < threshold))

/-- The Vary mutation of src line 202, `vary(res, 'Accept-Encoding')`. -/
def varyStep (s : Session) : Session :=
  { s with headers := { s.headers with vary := some (varyAppendAE s.headers.vary) } }

/-- The accept path of the decision engine (src lines 239-267): construct the
stream, replay the buffered listeners onto it, set Content-Encoding, remove
Content-Length, and wire the bridge handlers (data/end on the stream, drain on
the raw transport).  The `listeners` buffer itself is left as it is. -/
def acceptPath (cfg : Config) (m : String) (s : Session) : Session :=
  { s with
    stream := some (createStream m cfg.opts)
    streamListeners := s.streamListeners ++ s.listeners.getD []
      ++ [("data", Handler.onStreamData), ("end", Handler.onStreamEnd)]
    transportListeners := s.transportListeners ++ [("drain", Handler.onResponseDrain)]
    headers := { s.headers with contentEncoding := some m, contentLength := none } }

/-- The tail of the decision engine after the Vary mutation (src lines
204-267): threshold, already-encoded, HEAD, and negotiation checks, then the
accept path. -/
def afterVary (cfg : Config) (req : Request) (s : Session) : Session :=
  if belowThreshold s.headers.contentLength s.length cfg.threshold then nocompress s
  else if headerOr s.headers.contentEncoding "identity" ≠ "identity" then nocompress s
  else if req.method = "HEAD" then nocompress s
  else
    match negotiate req.acceptList with
    | none => nocompress s
    | some m => if m = "identity" then nocompress s else acceptPath cfg m s

/-- Embedding of `onResponseHeaders` (src lines 188-268), the decision engine
run when headers are about to be sent: filter, no-transform, Vary mutation,
then the remaining eligibility chain. -/
def onResponseHeaders (cfg : Config) (req : Request) (s : Session) : Session :=
  if !(cfg.filter req s.headers) then nocompress s
  else if !(shouldTransform s.headers.cacheControl) then nocompress s
  else afterVary cfg req (varyStep s)

/-- `this._implicitHeader()`: if headers are not yet sent, run the decision
engine (registered via `onHeaders`, src line 188) and mark them sent. -/
def implicitHeader (cfg : Config) (req : Request) (s : Session) : Session :=
  if s.headerSent then s
  else { onResponseHeaders cfg req s with headerSent := true }

/-- Where a `write` call ended up: delegated to the original `_write` on the
response itself, delegated to `_write` on the fake response constructed for
use-after-end errors (src lines 102-113, carrying its destroyed/finished
flags), or routed into the compression stream. -/
inductive WriteOutcome
  | nativeWrite (chunk : WriteChunk)
  | fakeWrite (destroyed : Bool) (finished : Bool) (chunk : WriteChunk)
  | streamWrite (buf : Buf)
deriving DecidableEq

/-- Embedding of the proxied `res.write` (src lines 82-122).  The
encoding/callback overload normalization (src lines 93-100) only shuffles
arguments that do not affect state or routing and is elided. -/
def write (cfg : Config) (req : Request) (s : Session) (chunk : WriteChunk) :
    Session × WriteOutcome :=
  match chunk with
  | .nullChunk => (s, .nativeWrite chunk)
  | .invalid => (s, .nativeWrite chunk)
  | .valid c =>
    if s.destroyed || s.finished || s.ended then
      if !s.destroyed then (s, .fakeWrite true true chunk)
      else (s, .fakeWrite true false chunk)
    else
      let s1 := implicitHeader cfg req s
      match s1.stream with
      | some _ => (s1, .streamWrite (toBuffer c))
      | none => (s1, .nativeWrite chunk)

/-- Where an `end` call ended up: delegated to the original `_end` (with the
native result it produced there) or routed into the compression stream. -/
inductive EndOutcome
  | native (result : NativeEndResult) (chunk : Option Chunk)
  | streamEnd (buf : Option Buf)
deriving DecidableEq

/-- Delegation to the original `_end.call(this, ...)`: the native transport
reacts according to its destroyed/finished state and becomes finished on
success. -/
def applyNativeEnd (s : Session) (chunk : Option Chunk) : Session × EndOutcome :=
  let r := nativeEnd s.destroyed s.finished
  (if r = .ok then { s with finished := true } else s, .native r chunk)

/-- Embedding of the proxied `res.end` (src lines 124-165).  The
chunk/encoding/callback overload normalization (src lines 125-137) is elided as
in `write`. -/
def resEnd (cfg : Config) (req : Request) (s : Session) (chunk : Option Chunk) :
    Session × EndOutcome :=
  if s.destroyed || s.finished || s.ended then
    applyNativeEnd { s with finished := s.ended } chunk
  else
    let s1 :=
      if s.headerSent then s
      else
        let s0 :=
          if jsFalsyStr s.headers.contentLength then
            { s with length := some (chunkLength chunk) }
          else s
        implicitHeader cfg req s0
    match s1.stream with
    | none => applyNativeEnd s1 chunk
    | some _ => ({ s1 with ended := true }, .streamEnd (chunk.map toBuffer))

/-- Embedding of the proxied `res.on` (src lines 167-180): non-drain events and
events after buffering closed go to the raw transport, drain goes to the stream
once one exists, and is buffered otherwise. -/
def resOn (s : Session) (ty : String) (l : Handler) : Session :=
  if s.listeners = none ∨ ty ≠ "drain" then
    { s with transportListeners := s.transportListeners ++ [(ty, l)] }
  else
    match s.stream with
    | some _ => { s with streamListeners := s.streamListeners ++ [(ty, l)] }
    | none => { s with listeners := s.listeners.map (· ++ [(ty, l)]) }

/-- What a `flush` call did: flushed the installed stream, or nothing. -/
inductive FlushOutcome
  | flushed (st : CompressionStream)
  | noop
deriving DecidableEq

/-- Embedding of the installed `res.flush` (src lines 74-78). -/
def flush (s : Session) : FlushOutcome :=
  match s.stream with
  | some st => .flushed st
  | none => .noop

/-- The body-size resolution described by the spec: prefer the explicit
Content-Length header (as coerced by `Number`), otherwise the estimate captured
from the terminal write. -/
def resolvedSize (cl : Option String) (length : Option Nat) : Option Nat :=
  match cl with
  | some s => jsToNumber s
  | none => length

/-! Helper lemmas shared by the claim theorems. -/

theorem contains_true_iff {l : List String} {a : String} :
    l.contains a = true ↔ a ∈ l :=
  List.elem_iff

theorem nocompress_headers (s : Session) : (nocompress s).headers = s.headers := rfl

theorem nocompress_stream (s : Session) : (nocompress s).stream = s.stream := rfl

theorem nocompress_listeners (s : Session) : (nocompress s).listeners = none := rfl

theorem varyStep_contentLength (s : Session) :
    (varyStep s).headers.contentLength = s.headers.contentLength := rfl

theorem varyStep_length (s : Session) : (varyStep s).length = s.length := rfl

/-- The accept path of the engine, abstractly: when every check of the
eligibility chain passes and negotiation yields a non-identity method, the
engine result is the accept path applied after the Vary mutation. -/
theorem engine_accept_path (cfg : Config) (req : Request) (s : Session) (m : String)
    (hfil : cfg.filter req s.headers = true)
    (htr : shouldTransform s.headers.cacheControl = true)
    (hthr : belowThreshold s.headers.contentLength s.length cfg.threshold = false)
    (hce : headerOr s.headers.contentEncoding "identity" = "identity")
    (hhead : req.method ≠ "HEAD")
    (hneg : negotiate req.acceptList = some m) (hmi : m ≠ "identity") :
    onResponseHeaders cfg req s = acceptPath cfg m (varyStep s) := by
  have hthr' : belowThreshold (varyStep s).headers.contentLength (varyStep s).length
      cfg.threshold = false := hthr
  have hce' : headerOr (varyStep s).headers.contentEncoding "identity" = "identity" := hce
  unfold onResponseHeaders
  rw [hfil, htr]
  simp only [Bool.not_true, Bool.false_eq_true, if_false]
  unfold afterVary
  rw [hthr', hce', hneg]
  simp [hhead, hmi]

/-! Claim C1.  The spec sentence says an unresolvable body size (no
Content-Length header, no captured estimate) makes the engine degrade to
pass-through.  In the source the threshold condition
`Number(res.getHeader('Content-Length')) < threshold || length < threshold`
is false when both operands are undefined, so an unknown-size response is NOT
declined there: it continues down the chain and is compressed when the
remaining checks pass. -/

def c1Cfg : Config := { filter := fun _ _ => true, threshold := 1024, opts := {} }

def c1Req : Request := { method := "GET", acceptList := ["gzip"] }

def c1Session : Session := initialSession { contentType := some "text/html" }

/-- Claim C1 counterexample: a concrete response with no Content-Length header
and no captured length estimate, on which the first body write is routed into a
gzip compression stream and Content-Encoding is set to gzip — the unknown-size
response is compressed, not sent uncompressed as the claim states. -/
theorem c1_counterexample :
    c1Session.headers.contentLength = none ∧ c1Session.length = none ∧
    (write c1Cfg c1Req c1Session (.valid (.bytes [1, 2, 3]))).2
      = .streamWrite (.raw [1, 2, 3]) ∧
    (write c1Cfg c1Req c1Session (.valid (.bytes [1, 2, 3]))).1.headers.contentEncoding
      = some "gzip" := by
  refine ⟨rfl, rfl, ?_, ?_⟩ <;> decide

/-- Claim C1 (amended): when the body size cannot be resolved (no explicit
Content-Length header and no estimated length captured), the threshold check
does not decline; the decision engine proceeds with the remaining eligibility
checks, and when those pass it installs the negotiated compression stream and
sets Content-Encoding — the response is compressed, not passed through. -/
theorem c1_unknown_size_not_declined (cfg : Config) (req : Request) (s : Session)
    (m : String)
    (hcl : s.headers.contentLength = none) (hlen : s.length = none)
    (hfil : cfg.filter req s.headers = true)
    (htr : shouldTransform s.headers.cacheControl = true)
    (hce : headerOr s.headers.contentEncoding "identity" = "identity")
    (hhead : req.method ≠ "HEAD")
    (hneg : negotiate req.acceptList = some m) (hmi : m ≠ "identity") :
    (onResponseHeaders cfg req s).stream = some (createStream m cfg.opts) ∧
    (onResponseHeaders cfg req s).headers.contentEncoding = some m := by
  have hthr : belowThreshold s.headers.contentLength s.length cfg.threshold = false := by
    rw [hcl, hlen]; rfl
  rw [engine_accept_path cfg req s m hfil htr hthr hce hhead hneg hmi]
  exact ⟨rfl, rfl⟩

/-- Witness for the amended C1 theorem at a concrete unknown-size session. -/
theorem c1_witness :
    (onResponseHeaders c1Cfg c1Req c1Session).stream
      = some (createStream "gzip" c1Cfg.opts) ∧
    (onResponseHeaders c1Cfg c1Req c1Session).headers.contentEncoding
      = some "gzip" :=
  c1_unknown_size_not_declined c1Cfg c1Req c1Session "gzip" rfl rfl rfl rfl rfl
    (by decide) (by decide) (by decide)

/-- Claim C8: a `write` whose chunk is null, or neither a string nor a
Uint8Array, is forwarded unchanged to the original transport write before any
ended-state check, header flush or stream routing: for every session state —
ended, destroyed, pre-decision or post-decision — the call returns the
untouched session together with the native delegation of the very chunk. -/
theorem c8_invalid_chunk_forwarded (cfg : Config) (req : Request) (s : Session) :
    write cfg req s .nullChunk = (s, .nativeWrite .nullChunk) ∧
    write cfg req s .invalid = (s, .nativeWrite .invalid) :=
  ⟨rfl, rfl⟩

/-- Claim C10: the flush operation installed on every response flushes the
compression stream exactly when one has been installed, and is a no-op on a
fresh session (before the decision) and in pass-through mode (no stream); it
never produces an error outcome. -/
theorem c10_flush_behavior :
    (∀ h : Headers, flush (initialSession h) = .noop) ∧
    (∀ s : Session, s.stream = none → flush s = .noop) ∧
    (∀ (s : Session) (st : CompressionStream), s.stream = some st → flush s = .flushed st) := by
  refine ⟨fun h => rfl, fun s hs => ?_, fun s st hs => ?_⟩ <;> simp [flush, hs]

/-- Witness for the C10 theorem: flushing a fresh session is a no-op, flushing
after a gzip stream is installed flushes that stream. -/
theorem c10_witness :
    flush (initialSession {}) = .noop ∧
    flush { initialSession {} with stream := some (createStream "gzip" {}) }
      = .flushed (createStream "gzip" {}) :=
  ⟨c10_flush_behavior.1 {}, c10_flush_behavior.2.2 _ _ rfl⟩

/-! Decline-path helpers: how the engine behaves when it declines, and how a
subsequent first write is routed. -/

theorem belowThreshold_of_resolvedSize (cl : Option String) (len : Option Nat)
    (t n : Nat) (h : resolvedSize cl len = some n) (hlt : n < t) :
    belowThreshold cl len t = true := by
  cases cl with
  | some s =>
    have h' : jsToNumber s = some n := h
    simp [belowThreshold, h', hlt]
  | none =>
    have h' : len = some n := h
    simp [belowThreshold, h', hlt]

theorem engine_preserves_on_below (cfg : Config) (req : Request) (s : Session)
    (hb : belowThreshold s.headers.contentLength s.length cfg.threshold = true) :
    (onResponseHeaders cfg req s).stream = s.stream ∧
    (onResponseHeaders cfg req s).headers.contentEncoding = s.headers.contentEncoding := by
  unfold onResponseHeaders
  cases hfil : cfg.filter req s.headers with
  | false => exact ⟨rfl, rfl⟩
  | true =>
    cases htr : shouldTransform s.headers.cacheControl with
    | false => exact ⟨rfl, rfl⟩
    | true =>
      have hb' : belowThreshold (varyStep s).headers.contentLength (varyStep s).length
          cfg.threshold = true := hb
      simp only [Bool.not_true, Bool.false_eq_true, if_false]
      unfold afterVary
      rw [hb']
      exact ⟨rfl, rfl⟩

theorem engine_eq_nocompress_of_transform_false (cfg : Config) (req : Request)
    (s : Session) (h : shouldTransform s.headers.cacheControl = false) :
    onResponseHeaders cfg req s = nocompress s := by
  unfold onResponseHeaders
  cases hfil : cfg.filter req s.headers <;> simp [h]

theorem write_passthrough (cfg : Config) (req : Request) (s : Session) (c : Chunk)
    (hd : s.destroyed = false) (hf : s.finished = false) (he : s.ended = false)
    (hh : s.headerSent = false)
    (hstream : (onResponseHeaders cfg req s).stream = none) :
    write cfg req s (.valid c)
      = ({ onResponseHeaders cfg req s with headerSent := true },
         .nativeWrite (.valid c)) := by
  unfold write
  rw [hd, hf, he]
  simp only [Bool.or_self, Bool.or_false, Bool.false_or, Bool.false_eq_true, if_false]
  unfold implicitHeader
  rw [hh]
  simp only [Bool.false_eq_true, if_false]
  have h1 : ({ onResponseHeaders cfg req s with headerSent := true } : Session).stream
      = none := hstream
  rw [h1]

/-- Claim C2: a response whose resolved body size (the explicit Content-Length
header, or otherwise the estimated length captured from the terminal write) is
below the configured threshold is declined: the first body write triggers the
decision, no Content-Encoding header is set, no stream is installed, and the
very chunk is delegated to the raw transport unmodified. -/
theorem c2_below_threshold_declines (cfg : Config) (req : Request) (s : Session)
    (c : Chunk) (n : Nat)
    (hsize : resolvedSize s.headers.contentLength s.length = some n)
    (hlt : n < cfg.threshold)
    (hd : s.destroyed = false) (hf : s.finished = false) (he : s.ended = false)
    (hh : s.headerSent = false) (hst : s.stream = none) :
    (write cfg req s (.valid c)).2 = .nativeWrite (.valid c) ∧
    (write cfg req s (.valid c)).1.headers.contentEncoding
      = s.headers.contentEncoding ∧
    (write cfg req s (.valid c)).1.stream = none := by
  have hb := belowThreshold_of_resolvedSize s.headers.contentLength s.length
    cfg.threshold n hsize hlt
  have hdec := engine_preserves_on_below cfg req s hb
  have hstream : (onResponseHeaders cfg req s).stream = none := hdec.1.trans hst
  rw [write_passthrough cfg req s c hd hf he hh hstream]
  exact ⟨rfl, hdec.2, hstream⟩

def c2Cfg : Config := { filter := fun _ _ => true, threshold := 1024, opts := {} }

def c2Req : Request := { method := "GET", acceptList := ["gzip"] }

def c2Session : Session :=
  initialSession { contentType := some "text/html", contentLength := some "10" }

/-- Witness for the C2 theorem: a 10-byte Content-Length response is passed
through byte-identically with no Content-Encoding. -/
theorem c2_witness :
    (write c2Cfg c2Req c2Session (.valid (.bytes [7, 8]))).2
      = .nativeWrite (.valid (.bytes [7, 8])) ∧
    (write c2Cfg c2Req c2Session (.valid (.bytes [7, 8]))).1.headers.contentEncoding
      = c2Session.headers.contentEncoding ∧
    (write c2Cfg c2Req c2Session (.valid (.bytes [7, 8]))).1.stream = none :=
  c2_below_threshold_declines c2Cfg c2Req c2Session (.bytes [7, 8]) 10
    (by decide) (by decide) rfl rfl rfl rfl rfl

theorem shouldTransform_false_of_noTransform (cc : String)
    (h : cacheControlNoTransform cc = true) : shouldTransform (some cc) = false := by
  have hne : cc.data.isEmpty = false := by
    cases cc with
    | mk data =>
      cases data with
      | nil => exact absurd h (by decide)
      | cons a l => rfl
  simp [shouldTransform, h, hne]

/-- Claim C3: a response whose Cache-Control header matches the no-transform
pattern is declined before any header mutation: the first body write is
delegated to the raw transport with the identical chunk, the headers (Vary
included) are exactly the input headers, and no stream is installed. -/
theorem c3_no_transform_declines (cfg : Config) (req : Request) (s : Session)
    (c : Chunk) (cc : String)
    (hcc : s.headers.cacheControl = some cc)
    (hnt : cacheControlNoTransform cc = true)
    (hd : s.destroyed = false) (hf : s.finished = false) (he : s.ended = false)
    (hh : s.headerSent = false) (hst : s.stream = none) :
    (write cfg req s (.valid c)).2 = .nativeWrite (.valid c) ∧
    (write cfg req s (.valid c)).1.headers = s.headers ∧
    (write cfg req s (.valid c)).1.stream = none := by
  have htr : shouldTransform s.headers.cacheControl = false := by
    rw [hcc]; exact shouldTransform_false_of_noTransform cc hnt
  have heng : onResponseHeaders cfg req s = nocompress s :=
    engine_eq_nocompress_of_transform_false cfg req s htr
  have hstream : (onResponseHeaders cfg req s).stream = none := by
    rw [heng]; exact hst
  rw [write_passthrough cfg req s c hd hf he hh hstream]
  refine ⟨rfl, ?_, hstream⟩
  show ({ onResponseHeaders cfg req s with headerSent := true } : Session).headers
      = s.headers
  rw [heng]
  rfl

def c3Cfg : Config := { filter := fun _ _ => true, threshold := 1024, opts := {} }

def c3Req : Request := { method := "GET", acceptList := ["gzip"] }

def c3Session : Session :=
  initialSession
    { contentType := some "text/html"
      cacheControl := some "public, no-transform" }

/-- Witness for the C3 theorem: a `Cache-Control: public, no-transform`
response is passed through with its headers untouched. -/
theorem c3_witness :
    (write c3Cfg c3Req c3Session (.valid (.str "hi"))).2
      = .nativeWrite (.valid (.str "hi")) ∧
    (write c3Cfg c3Req c3Session (.valid (.str "hi"))).1.headers
      = c3Session.headers ∧
    (write c3Cfg c3Req c3Session (.valid (.str "hi"))).1.stream = none :=
  c3_no_transform_declines c3Cfg c3Req c3Session (.str "hi")
    "public, no-transform" rfl (by decide) rfl rfl rfl rfl rfl

theorem mem_varyAppendAE (v : Option (List String)) :
    "Accept-Encoding" ∈ varyAppendAE v := by
  cases v with
  | none => simp [varyAppendAE]
  | some l => by_cases h : "Accept-Encoding" ∈ l <;> simp [varyAppendAE, h]

theorem afterVary_vary (cfg : Config) (req : Request) (s : Session) :
    (afterVary cfg req s).headers.vary = s.headers.vary := by
  unfold afterVary
  repeat' split
  all_goals rfl

/-- Claim C4: whenever the custom filter passes and the no-transform check
passes, the decision engine mutates the Vary header to include
Accept-Encoding, regardless of how the rest of the eligibility chain
(threshold, already-encoded, HEAD, negotiation) turns out. -/
theorem c4_vary_includes_accept_encoding (cfg : Config) (req : Request) (s : Session)
    (hfil : cfg.filter req s.headers = true)
    (htr : shouldTransform s.headers.cacheControl = true) :
    ∃ l, (onResponseHeaders cfg req s).headers.vary = some l ∧
      "Accept-Encoding" ∈ l := by
  unfold onResponseHeaders
  rw [hfil, htr]
  simp only [Bool.not_true, Bool.false_eq_true, if_false]
  refine ⟨varyAppendAE s.headers.vary, ?_, mem_varyAppendAE _⟩
  rw [afterVary_vary]
  rfl

def c4Cfg : Config := { filter := fun _ _ => true, threshold := 1024, opts := {} }

def c4Req : Request := { method := "HEAD", acceptList := ["gzip"] }

def c4Session : Session :=
  initialSession { contentType := some "text/html", contentLength := some "4096" }

/-- Witness for the C4 theorem on a HEAD request: compression is declined later
in the chain, yet Vary includes Accept-Encoding. -/
theorem c4_witness :
    ∃ l, (onResponseHeaders c4Cfg c4Req c4Session).headers.vary = some l ∧
      "Accept-Encoding" ∈ l :=
  c4_vary_includes_accept_encoding c4Cfg c4Req c4Session rfl rfl

/-! Negotiation lemmas for claim C5. -/

theorem find?_contains_eq_some (aList provided : List String) (a : String)
    (ha : a ∈ aList) (hp : provided.contains a = true)
    (huniq : ∀ y ∈ aList, provided.contains y = true → y = a) :
    aList.find? (fun e => provided.contains e) = some a := by
  cases hfind : aList.find? (fun e => provided.contains e) with
  | none => exact absurd hp (List.find?_eq_none.mp hfind a ha)
  | some y =>
    have h1 := List.find?_some hfind
    have h2 := List.mem_of_find?_eq_some hfind
    rw [huniq y h2 h1]

theorem negotiate_gzip_of_accepts_both (aList : List String)
    (hg : "gzip" ∈ aList) (_hdef : "deflate" ∈ aList)
    (hnb : "br" ∉ aList) (hni : "identity" ∉ aList) :
    negotiate aList = some "gzip" := by
  have hgz1 : acceptEncoding aList ["gzip"] = some "gzip" := by
    unfold acceptEncoding
    rw [find?_contains_eq_some aList ["gzip"] "gzip" hg (by decide) ?_]
    intro y hy hc
    have := contains_true_iff.mp hc
    simpa using this
  have hgz2 : acceptEncoding aList ["gzip", "identity"] = some "gzip" := by
    unfold acceptEncoding
    rw [find?_contains_eq_some aList ["gzip", "identity"] "gzip" hg (by decide) ?_]
    intro y hy hc
    have hmem := contains_true_iff.mp hc
    simp at hmem
    rcases hmem with h | h
    · exact h
    · exact absurd (h ▸ hy) hni
  cases hfind : aList.find?
      (fun e => (["br", "gzip", "deflate", "identity"] : List String).contains e) with
  | none =>
    exact absurd (by decide : (["br", "gzip", "deflate", "identity"] : List String).contains "gzip" = true)
      (List.find?_eq_none.mp hfind "gzip" hg)
  | some x =>
    have hx1 := List.find?_some hfind
    have hx2 := List.mem_of_find?_eq_some hfind
    have hx3 : x ∈ (["br", "gzip", "deflate", "identity"] : List String) :=
      contains_true_iff.mp hx1
    have hmain : acceptEncoding aList ["br", "gzip", "deflate", "identity"] = some x := by
      unfold acceptEncoding
      rw [hfind]
    have hxcases : x = "gzip" ∨ x = "deflate" := by
      simp at hx3
      rcases hx3 with h | h | h | h
      · exact absurd (h ▸ hx2) hnb
      · exact Or.inl h
      · exact Or.inr h
      · exact absurd (h ▸ hx2) hni
    rcases hxcases with hx | hx
    · subst hx
      unfold negotiate
      rw [hmain]
      simp
    · subst hx
      unfold negotiate
      rw [hmain]
      simp [hgz1, hgz2]

/-- Claim C5: for an eligible above-threshold response whose request accepts
both gzip and deflate (and lists neither brotli nor identity, as in
`Accept-Encoding: gzip, deflate`), negotiation with the deflate-to-gzip
tie-break installs the gzip stream and sets Content-Encoding to gzip —
never deflate. -/
theorem c5_gzip_never_deflate (cfg : Config) (req : Request) (s : Session)
    (hfil : cfg.filter req s.headers = true)
    (htr : shouldTransform s.headers.cacheControl = true)
    (hthr : belowThreshold s.headers.contentLength s.length cfg.threshold = false)
    (hce : headerOr s.headers.contentEncoding "identity" = "identity")
    (hhead : req.method ≠ "HEAD")
    (hg : "gzip" ∈ req.acceptList) (hdef : "deflate" ∈ req.acceptList)
    (hnb : "br" ∉ req.acceptList) (hni : "identity" ∉ req.acceptList) :
    (onResponseHeaders cfg req s).stream = some (createStream "gzip" cfg.opts) ∧
    (onResponseHeaders cfg req s).headers.contentEncoding = some "gzip" := by
  have hneg := negotiate_gzip_of_accepts_both req.acceptList hg hdef hnb hni
  rw [engine_accept_path cfg req s "gzip" hfil htr hthr hce hhead hneg (by decide)]
  exact ⟨rfl, rfl⟩

def c5Cfg : Config := { filter := fun _ _ => true, threshold := 1024, opts := {} }

def c5Req : Request := { method := "GET", acceptList := ["deflate", "gzip"] }

def c5Session : Session :=
  initialSession { contentType := some "text/html", contentLength := some "2048" }

/-- Witness for the C5 theorem with `Accept-Encoding: deflate, gzip`, the order
that exercises the deflate-to-gzip tie-break. -/
theorem c5_witness :
    (onResponseHeaders c5Cfg c5Req c5Session).stream
      = some (createStream "gzip" c5Cfg.opts) ∧
    (onResponseHeaders c5Cfg c5Req c5Session).headers.contentEncoding
      = some "gzip" :=
  c5_gzip_never_deflate c5Cfg c5Req c5Session rfl rfl (by decide) rfl (by decide)
    (by decide) (by decide) (by decide) (by decide)

/-! Claim C6.  The claim says every chosen algorithm's stream is constructed
with the configured codec options; in the source only gzip and deflate receive
the options object (src lines 244-245), brotli is constructed with no argument
(src line 242). -/

def c6Cfg : Config :=
  { filter := fun _ _ => true, threshold := 1024, opts := { level := some 5 } }

def c6Req : Request := { method := "GET", acceptList := ["br"] }

def c6Session : Session := initialSession { contentType := some "text/html" }

/-- Claim C6 counterexample: with codec options configured (level 5) and a
brotli-accepting request, the engine installs a brotli stream constructed with
no options object, contradicting "constructs the CompressionStream for that
algorithm with the configured codec options" for the brotli case. -/
theorem c6_counterexample :
    (onResponseHeaders c6Cfg c6Req c6Session).stream
      = some { algorithm := "br", opts := none } ∧
    ({ algorithm := "br", opts := none } : CompressionStream).opts
      ≠ some c6Cfg.opts := by
  exact ⟨by decide, by decide⟩

/-- Claim C6 (amended): on the accept path the engine installs the stream for
the chosen algorithm — brotli constructed with no options, gzip and deflate
with the configured codec options — sets the Content-Encoding header to the
chosen algorithm's name and removes the Content-Length header. -/
theorem c6_accept_path_effects (cfg : Config) (req : Request) (s : Session)
    (m : String)
    (hfil : cfg.filter req s.headers = true)
    (htr : shouldTransform s.headers.cacheControl = true)
    (hthr : belowThreshold s.headers.contentLength s.length cfg.threshold = false)
    (hce : headerOr s.headers.contentEncoding "identity" = "identity")
    (hhead : req.method ≠ "HEAD")
    (hneg : negotiate req.acceptList = some m) (hmi : m ≠ "identity") :
    (onResponseHeaders cfg req s).stream = some (createStream m cfg.opts) ∧
    (onResponseHeaders cfg req s).headers.contentEncoding = some m ∧
    (onResponseHeaders cfg req s).headers.contentLength = none ∧
    (m = "br" → (createStream m cfg.opts).opts = none) ∧
    (m = "gzip" ∨ m = "deflate" → (createStream m cfg.opts).opts = some cfg.opts) := by
  rw [engine_accept_path cfg req s m hfil htr hthr hce hhead hneg hmi]
  refine ⟨rfl, rfl, rfl, ?_, ?_⟩
  · intro h
    subst h
    rfl
  · rintro (h | h) <;> subst h <;> simp [createStream]

def c6wReq : Request := { method := "GET", acceptList := ["gzip"] }

/-- Witness for the amended C6 theorem: the gzip stream carries the configured
options, Content-Encoding is gzip and Content-Length is removed. -/
theorem c6_witness :
    (onResponseHeaders c6Cfg c6wReq c6Session).stream
      = some (createStream "gzip" c6Cfg.opts) ∧
    (onResponseHeaders c6Cfg c6wReq c6Session).headers.contentEncoding
      = some "gzip" ∧
    (onResponseHeaders c6Cfg c6wReq c6Session).headers.contentLength = none ∧
    ("gzip" = "br" → (createStream "gzip" c6Cfg.opts).opts = none) ∧
    ("gzip" = "gzip" ∨ "gzip" = "deflate" →
      (createStream "gzip" c6Cfg.opts).opts = some c6Cfg.opts) :=
  c6_accept_path_effects c6Cfg c6wReq c6Session "gzip" rfl rfl rfl rfl
    (by decide) (by decide) (by decide)

/-! Claim C7.  The source's already-ended branch (src lines 139-143) sets
`this.finished = ended` and delegates to the native end.  When the session was
ended through the stream path, or the transport is destroyed, this reproduces
the native double-end error category.  But after a pass-through end (native
finished = true, internal ended still false) the assignment RESETS finished to
false, so the delegated call is an ordinary native end and no double-end error
surfaces. -/

def c7Cfg : Config := { filter := fun _ _ => false, threshold := 1024, opts := {} }

def c7Req : Request := { method := "GET", acceptList := ["gzip"] }

def c7Session : Session := initialSession { contentType := some "text/html" }

/-- Claim C7 counterexample: after a pass-through end (finished true, ended
false), a second end resets finished to ended (false) before delegating, and
the delegated native end reports success — not the already-finished error
category that calling the native transport's end twice surfaces. -/
theorem c7_counterexample :
    (resEnd c7Cfg c7Req c7Session none).1.finished = true ∧
    (resEnd c7Cfg c7Req c7Session none).1.ended = false ∧
    (resEnd c7Cfg c7Req (resEnd c7Cfg c7Req c7Session none).1 none).2
      = .native .ok none ∧
    nativeDoubleEnd false = .errAlreadyEnded ∧
    NativeEndResult.errAlreadyEnded ≠ .ok := by
  refine ⟨by decide, by decide, by decide, rfl, by decide⟩

/-- Claim C7 (amended): when the session is ended (a previous end went through
the compression stream) or the transport is destroyed, a further end makes the
externally visible finished flag equal to the internal ended flag and
delegates, surfacing exactly the error category a native double end surfaces in
that destroyed-state; the mirroring does not extend to the finished-only
pass-through case, where the flag reset turns the delegation into an ordinary
native end. -/
theorem c7_end_error_mirroring (cfg : Config) (req : Request) (s : Session)
    (chunk : Option Chunk) (h : s.ended = true ∨ s.destroyed = true) :
    (resEnd cfg req s chunk).1.finished = s.ended ∧
    (resEnd cfg req s chunk).2 = .native (nativeDoubleEnd s.destroyed) chunk := by
  have key : ∀ d e : Bool, (d = true ∨ e = true) →
      nativeEnd d e ≠ .ok ∧ nativeEnd d e = nativeDoubleEnd d := by decide
  have hk := key s.destroyed s.ended (by rcases h with h | h; exacts [Or.inr h, Or.inl h])
  have hcond : (s.destroyed || s.finished || s.ended) = true := by
    rcases h with h | h <;> simp [h]
  unfold resEnd
  rw [hcond]
  simp only [if_true]
  unfold applyNativeEnd
  simp only []
  rw [if_neg hk.1]
  exact ⟨rfl, by rw [hk.2]⟩

def c7wSession : Session :=
  { initialSession { contentType := some "text/html" } with
    ended := true
    headerSent := true
    stream := some (createStream "gzip" {}) }

/-- Witness for the amended C7 theorem: a second end on a stream-path session
(ended = true) surfaces the already-finished category, with the finished flag
made consistent with ended. -/
theorem c7_witness :
    (resEnd c7Cfg c7Req c7wSession none).1.finished = c7wSession.ended ∧
    (resEnd c7Cfg c7Req c7wSession none).2
      = .native (nativeDoubleEnd c7wSession.destroyed) none :=
  c7_end_error_mirroring c7Cfg c7Req c7wSession none (Or.inl rfl)

/-! Claim C9.  Only the decline path (`nocompress`, src line 185) clears the
listeners buffer to null; the accept path replays it onto the stream
(src line 248) but leaves the variable set.  Subsequent drain registrations
still bypass the buffer because the installed stream takes precedence in the
proxied `on` (src lines 172-174). -/

def c9Cfg : Config := { filter := fun _ _ => true, threshold := 1024, opts := {} }

def c9Req : Request := { method := "GET", acceptList := ["gzip"] }

def c9Session : Session :=
  { initialSession { contentType := some "text/html" } with
    listeners := some [("drain", Handler.user 7)] }

/-- Claim C9 counterexample: on the accept path the decision installs a stream
but the pendingListeners buffer still holds its entry afterwards — it is not
cleared to the terminal marker as the claim states for both paths. -/
theorem c9_counterexample :
    (onResponseHeaders c9Cfg c9Req c9Session).stream.isSome = true ∧
    (onResponseHeaders c9Cfg c9Req c9Session).listeners
      = some [("drain", Handler.user 7)] ∧
    (onResponseHeaders c9Cfg c9Req c9Session).listeners ≠ none := by
  refine ⟨by decide, by decide, by decide⟩

theorem engine_decided (cfg : Config) (req : Request) (s : Session) :
    (onResponseHeaders cfg req s).listeners = none ∨
    (onResponseHeaders cfg req s).stream.isSome = true := by
  unfold onResponseHeaders afterVary
  repeat' split
  all_goals simp [nocompress, acceptPath]

theorem resOn_after_decision (r : Session)
    (hr : r.listeners = none ∨ r.stream.isSome = true) (ty : String) (l : Handler) :
    (resOn r ty l).listeners = r.listeners ∧
    ((resOn r ty l).transportListeners = r.transportListeners ++ [(ty, l)] ∨
     (resOn r ty l).streamListeners = r.streamListeners ++ [(ty, l)]) := by
  unfold resOn
  split
  · exact ⟨rfl, Or.inl rfl⟩
  · rename_i hcond
    cases hst : r.stream with
    | some st => simp [hst]
    | none =>
      exfalso
      rcases hr with h | h
      · exact hcond (Or.inl h)
      · rw [hst] at h
        simp at h

/-- Claim C9 (amended): once the decision engine has run, the buffer is
cleared to the terminal null marker on the decline path, while on the accept
path it is left in place but the installed stream takes precedence; on both
paths every subsequent listener registration bypasses the buffer (the buffer
never grows again) and reaches the raw transport or the compression stream. -/
theorem c9_buffer_bypass_after_decision (cfg : Config) (req : Request) (s : Session)
    (ty : String) (l : Handler) :
    ((onResponseHeaders cfg req s).stream = none →
      (onResponseHeaders cfg req s).listeners = none) ∧
    (resOn (onResponseHeaders cfg req s) ty l).listeners
      = (onResponseHeaders cfg req s).listeners ∧
    ((resOn (onResponseHeaders cfg req s) ty l).transportListeners
        = (onResponseHeaders cfg req s).transportListeners ++ [(ty, l)] ∨
     (resOn (onResponseHeaders cfg req s) ty l).streamListeners
        = (onResponseHeaders cfg req s).streamListeners ++ [(ty, l)]) := by
  have hd := engine_decided cfg req s
  have hb := resOn_after_decision _ hd ty l
  refine ⟨?_, hb.1, hb.2⟩
  intro hsn
  rcases hd with h | h
  · exact h
  · rw [hsn] at h
    simp at h

def c9wCfg : Config := { filter := fun _ _ => false, threshold := 1024, opts := {} }

/-- Witness for the amended C9 theorem on a concrete declined response: the
buffer is the terminal null marker and a later drain registration leaves it
untouched. -/
theorem c9_witness :
    (onResponseHeaders c9wCfg c9Req c9Session).listeners = none ∧
    (resOn (onResponseHeaders c9wCfg c9Req c9Session) "drain" (Handler.user 2)).listeners
      = (onResponseHeaders c9wCfg c9Req c9Session).listeners :=
  ⟨(c9_buffer_bypass_after_decision c9wCfg c9Req c9Session "drain" (Handler.user 2)).1
      (by decide),
   (c9_buffer_bypass_after_decision c9wCfg c9Req c9Session "drain" (Handler.user 2)).2.1⟩

end Compression
